import Mathlib

/-!
Verification of the MainsSwitch firmware core (MainsSwitch.ino).

The firmware is embedded shallowly: bytes are `Nat` (values 0..255 where it
matters), GPIO and flag state is an explicit record, and external effects
(broker publish results, connect results, inbound MQTT messages) are supplied
as oracles. Side effects visible to the outside world (publish attempts,
connect attempts, yields, subscriptions) are collected in an event trace.
-/

namespace MainsSwitch

/-- `constexpr const char* trueString = "true";` -/
def trueString : String := "true"

/-- `constexpr const char* falseString = "false";` -/
def falseString : String := "false"

/-- The firmware's mutable state owned by the relay controller:
the GPIO level of `RelayPort` (`true` = HIGH), the dirty flag
`relaySwitched`, and the readiness flag `mqttReady`. -/
structure DeviceState where
  relayLevel : Bool
  relaySwitched : Bool
  mqttReady : Bool
deriving Repr, DecidableEq

/-- Observable external effects of the firmware, in order of occurrence. -/
inductive MEvent where
  | publish (topic value : String)
  | connectAttempt
  | yieldCoop
  | subscribe (topic : String)
deriving Repr, DecidableEq

/-- `bool equals(byte* payload, unsigned int length, const char* expectation)`:
length check, then byte-for-byte comparison of the payload against the
expectation string. -/
def equals (payload : List Nat) (expectation : String) : Bool :=
  if payload.length ≠ expectation.length then false
  else (List.zip (expectation.toList.map Char.toNat) payload).all
    fun pr => pr.1 == pr.2

/-- The UTF-8/ASCII bytes of a payload string, for building concrete inbound
messages. -/
def strBytes (s : String) : List Nat := s.toList.map Char.toNat

/-- The device key `chipId[0..3]` computed in `getConfig`: bytes 1..3 are the
three low-order bytes of the chip id (high to low), byte 0 is their XOR. -/
def deviceKey (chipId : Nat) : List Nat :=
  let k1 := (chipId >>> 16) &&& 0xff
  let k2 := (chipId >>> 8) &&& 0xff
  let k3 := chipId &&& 0xff
  [k1 ^^^ k2 ^^^ k3, k1, k2, k3]

/-- The decode loop of `getConfig`: starting at `address`, with `fuel`
remaining capacity, XOR each stored byte with `key (address % 4)` and stop at
the first byte that decodes to zero (the loop also stops at capacity 512,
which `fuel` counts down). Returns the decoded plaintext bytes before the
terminator. -/
def decodeBytes (storage : Nat → Nat) (key : Nat → Nat) : Nat → Nat → List Nat
  | _, 0 => []
  | addr, fuel + 1 =>
    let v := storage addr ^^^ key (addr % 4)
    if v = 0 then [] else v :: decodeBytes storage key (addr + 1) fuel

/-- The plaintext that `getConfig` recovers from persistent storage:
the decode loop run from address 0 with the 512-byte capacity. -/
def getConfigPlaintext (storage : Nat → Nat) (key : Nat → Nat) : List Nat :=
  decodeBytes storage key 0 512

/-- Modelled from the spec: the encoder is not part of the firmware (the blob
is written to EEPROM offline); per the spec the storage holds each plaintext
byte XORed with the key byte cycled over 4, with a zero terminator (stored as
the bare key byte, which decodes to zero). Positions past the terminator are
irrelevant to decoding and are also stored as the key byte. -/
def encodeConfig (plaintext : List Nat) (key : Nat → Nat) : Nat → Nat :=
  fun i => if i < plaintext.length then plaintext.getD i 0 ^^^ key (i % 4)
           else key (i % 4)

/-- `bool mqttPublish(const char* topic, const char* value)`: fails without
attempting a publish when `hostName` is null; otherwise attempts a publish to
`homie/<host>/<topic>` whose broker-side success is the oracle `ok`. Returns
the success flag and the publish attempts made. -/
def mqttPublish (hostName : Option String) (ok : Bool) (topic value : String) :
    Bool × List MEvent :=
  match hostName with
  | none => (false, [])
  | some h => (ok, [MEvent.publish ("homie/" ++ h ++ "/" ++ topic) value])

/-- The fixed topology publishes of `mqttAnnounce` after the `$homie` liveness
probe, in source order (results ignored by the source). -/
def announceRest (h : String) : List (String × String) :=
  [("$name", h), ("$nodes", "switch"), ("$implementation", "esp8266"),
   ("$state", "ready"), ("$extensions", ""), ("switch/$name", "Switch"),
   ("switch/$type", "1"), ("switch/$properties", "1"),
   ("switch/1/$name", "1"), ("switch/1/$datatype", "Boolean"),
   ("switch/1/$settable", "true")]

/-- `bool mqttAnnounce()`: publishes `$homie`/`4.0.0` first; on its failure
returns false at once; otherwise performs the remaining topology publishes,
discarding their results, and returns true. `res i` is the broker's answer to
the `i`-th publish attempt. -/
def mqttAnnounce (hostName : Option String) (res : Nat → Bool) :
    Bool × List MEvent :=
  let probe := mqttPublish hostName (res 0) "$homie" "4.0.0"
  if !probe.1 then (false, probe.2)
  else
    let h := hostName.getD ""
    (true, probe.2 ++ (announceRest h).map
      fun p => MEvent.publish ("homie/" ++ h ++ "/" ++ p.1) p.2)

/-- The retry loop of `mqttConnect`:
`int tries = 3; while (!connect(...) && --tries > 0) { ...; yield(); }`.
`res i` is the outcome of the `i`-th connect attempt; `tries` is the value of
the counter before the decrement of the current iteration. Returns whether
the client ended up connected, and the attempt/yield trace. -/
def connectWhile (res : Nat → Bool) : Nat → Nat → Bool × List MEvent
  | _, 0 => (false, [])
  | i, tries + 1 =>
    if res i then (true, [MEvent.connectAttempt])
    else if tries > 0 then
      let rest := connectWhile res (i + 1) tries
      (rest.1, MEvent.connectAttempt :: MEvent.yieldCoop :: rest.2)
    else (false, [MEvent.connectAttempt])

/-- `bool mqttConnect()`: fails at once when the `mqtt` config section is
absent; otherwise runs the 3-try connect loop; if still unconnected returns
false; otherwise subscribes to `homie/<host>/switch/1/set` and returns false
on subscribe failure, true on success. -/
def mqttConnect (hasMqtt : Bool) (hostName : Option String)
    (res : Nat → Bool) (subOk : Bool) : Bool × List MEvent :=
  if !hasMqtt then (false, [])
  else
    let conn := connectWhile res 0 3
    if !conn.1 then (false, conn.2)
    else
      let topic := "homie/" ++ hostName.getD "" ++ "/switch/1/set"
      if !subOk then (false, conn.2 ++ [MEvent.subscribe topic])
      else (true, conn.2 ++ [MEvent.subscribe topic])

/-- `void mqttCallback(const char* topic, byte* payload, unsigned int length)`:
a payload equal to `"true"` while the relay reads LOW drives the GPIO HIGH and
sets the dirty flag; then a payload equal to `"false"` while the relay reads
HIGH drives it LOW and sets the dirty flag (the two ifs are sequential, the
second reads the level possibly written by the first). -/
def mqttCallback (payload : List Nat) (s : DeviceState) : DeviceState :=
  let s1 := if equals payload trueString && !s.relayLevel then
      { s with relaySwitched := true, relayLevel := true }
    else s
  if equals payload falseString && s1.relayLevel then
    { s1 with relaySwitched := true, relayLevel := false }
  else s1

/-- External oracle for one iteration of `loop()`: the broker's answer to the
`switch/1` publish (if attempted), the result of `mqttClient.loop()`, the
inbound command payloads it dispatches when it succeeds, and the oracles of a
reconnect `mqttConnect` call (if made). -/
structure LoopEnv where
  publishOk : Bool
  clientLoopOk : Bool
  inbound : List (List Nat)
  reconnectRes : Nat → Bool
  subscribeOk : Bool

/-- One iteration of `void loop()`: nothing happens unless `mqttReady`; if the
dirty flag is set, publish the physically-read relay level to `switch/1` and
clear the flag exactly when the publish succeeds; then run the MQTT client
loop — on its success inbound commands are dispatched to `mqttCallback`, on
its failure `mqttReady` is reassigned from a fresh `mqttConnect`. -/
def loopStep (hasMqtt : Bool) (hostName : Option String) (s : DeviceState)
    (env : LoopEnv) : DeviceState × List MEvent :=
  if !s.mqttReady then (s, [])
  else
    let pub :=
      if s.relaySwitched then
        let p := mqttPublish hostName env.publishOk "switch/1"
          (if s.relayLevel then trueString else falseString)
        (if p.1 then { s with relaySwitched := false } else s, p.2)
      else (s, ([] : List MEvent))
    if env.clientLoopOk then
      (env.inbound.foldl (fun st p => mqttCallback p st) pub.1, pub.2)
    else
      let rc := mqttConnect hasMqtt hostName env.reconnectRes env.subscribeOk
      ({ pub.1 with mqttReady := rc.1 }, pub.2 ++ rc.2)

/-! ## Helper lemmas -/

/-- The decode loop undoes the spec's encoding: running it from any address
with enough remaining capacity recovers the suffix of a zero-free plaintext. -/
theorem decodeBytes_encodeConfig (plaintext : List Nat) (key : Nat → Nat)
    (hz : ∀ b ∈ plaintext, b ≠ 0) :
    ∀ (fuel addr : Nat), plaintext.length ≤ addr + fuel →
      decodeBytes (encodeConfig plaintext key) key addr fuel =
        plaintext.drop addr := by
  intro fuel
  induction fuel with
  | zero =>
    intro addr hle
    simp only [Nat.add_zero] at hle
    simp [decodeBytes, List.drop_eq_nil_of_le hle]
  | succ f ih =>
    intro addr hle
    by_cases haddr : addr < plaintext.length
    · have hget : encodeConfig plaintext key addr =
          plaintext[addr] ^^^ key (addr % 4) := by
        simp [encodeConfig, haddr, List.getD_eq_getElem]
      have hdec : encodeConfig plaintext key addr ^^^ key (addr % 4) =
          plaintext[addr] := by
        rw [hget, Nat.xor_cancel_right]
      have hne : plaintext[addr] ≠ 0 :=
        hz _ (List.getElem_mem haddr)
      rw [decodeBytes]
      simp only [hdec, hne, if_neg hne]
      rw [ih (addr + 1) (by omega), List.drop_eq_getElem_cons haddr]
      simp
    · have hge : plaintext.length ≤ addr := Nat.le_of_not_lt haddr
      have hget : encodeConfig plaintext key addr = key (addr % 4) := by
        simp [encodeConfig, haddr]
      rw [decodeBytes]
      simp [hget, List.drop_eq_nil_of_le hge]

/-- The connect retry loop emits only connect attempts and yields — never a
publish or a subscribe. -/
theorem connectWhile_no_publish (res : Nat → Bool) :
    ∀ (tries i : Nat) (t v : String),
      MEvent.publish t v ∉ (connectWhile res i tries).2 := by
  intro tries
  induction tries with
  | zero => intro i t v; simp [connectWhile]
  | succ n ih =>
    intro i t v
    by_cases h : res i
    · simp [connectWhile, h]
    · by_cases hn : n > 0
      · simp [connectWhile, h, hn, ih (i + 1) t v]
      · simp [connectWhile, h, hn]

/-- `mqttConnect` never publishes: its trace holds only connect attempts,
yields and the subscribe. -/
theorem mqttConnect_no_publish (hasMqtt : Bool) (hostName : Option String)
    (res : Nat → Bool) (subOk : Bool) (t v : String) :
    MEvent.publish t v ∉ (mqttConnect hasMqtt hostName res subOk).2 := by
  unfold mqttConnect
  by_cases hm : hasMqtt
  · simp only [hm, Bool.not_true, Bool.false_eq_true, if_false]
    by_cases hc : (connectWhile res 0 3).1
    · simp only [hc, Bool.not_true, Bool.false_eq_true, if_false]
      by_cases hs : subOk <;>
        simp [hs, connectWhile_no_publish res 3 0 t v]
    · simp [hc, connectWhile_no_publish res 3 0 t v]
  · simp [hm]

/-- Reassociating the topic built by `mqttPublish` merges the literal slash
into the literal suffix. -/
theorem topic_merge (h t u : String)
    (htu : "/" ++ t = u) : "homie/" ++ h ++ "/" ++ t = "homie/" ++ h ++ u := by
  rw [String.append_assoc, htu]

/-- A byte masked with `0xff` is the byte modulo 256. -/
theorem and_255_eq_mod (x : Nat) : x &&& 255 = x % 256 := by
  have h := Nat.and_pow_two_sub_one_eq_mod x 8
  norm_num at h
  exact h

/-- The payload bytes of `"true"` match `trueString` under `equals`. -/
theorem equals_true_true : equals (strBytes "true") trueString = true := by
  decide

/-- The payload bytes of `"true"` do not match `falseString`. -/
theorem equals_true_false : equals (strBytes "true") falseString = false := by
  decide

/-- The payload bytes of `"false"` match `falseString` under `equals`. -/
theorem equals_false_false : equals (strBytes "false") falseString = true := by
  decide

/-- The payload bytes of `"false"` do not match `trueString`. -/
theorem equals_false_true : equals (strBytes "false") trueString = false := by
  decide

/-! ## Claims -/

/-- C8: for every hardware chip identifier, the derived 4-byte device key
satisfies `key[0] = key[1] XOR key[2] XOR key[3]`, where bytes 1..3 are the
three low-order bytes of the identifier (high to low); the derivation is a
pure function of the identifier, hence deterministic. -/
theorem deviceKey_checksum (chipId : Nat) :
    (deviceKey chipId).length = 4 ∧
    (deviceKey chipId).getD 0 0 =
      (deviceKey chipId).getD 1 0 ^^^ (deviceKey chipId).getD 2 0 ^^^
        (deviceKey chipId).getD 3 0 ∧
    (deviceKey chipId).getD 1 0 = (chipId >>> 16) % 256 ∧
    (deviceKey chipId).getD 2 0 = (chipId >>> 8) % 256 ∧
    (deviceKey chipId).getD 3 0 = chipId % 256 := by
  refine ⟨rfl, ?_, ?_, ?_, ?_⟩ <;> simp [deviceKey, and_255_eq_mod]

/-- C7: the config decode XORs stored byte `i` with `deviceKey[i mod 4]` and
stops at the first zero-decoding byte (or at the 512-byte capacity), so
decoding inverts the spec's encoding: for every plaintext free of zero bytes
that fits the capacity, `decode (encode plaintext key) key = plaintext`. -/
theorem getConfig_decode_encode (plaintext : List Nat) (key : Nat → Nat)
    (hz : ∀ b ∈ plaintext, b ≠ 0) (hlen : plaintext.length ≤ 512) :
    getConfigPlaintext (encodeConfig plaintext key) key = plaintext := by
  unfold getConfigPlaintext
  rw [decodeBytes_encodeConfig plaintext key hz 512 0 (by omega)]
  simp

/-- Witness for C7 at a concrete plaintext and key. -/
theorem getConfig_decode_encode_witness :
    getConfigPlaintext
      (encodeConfig [123, 34, 119, 34, 125] (fun i => [7, 1, 2, 3].getD i 0))
      (fun i => [7, 1, 2, 3].getD i 0) = [123, 34, 119, 34, 125] :=
  getConfig_decode_encode [123, 34, 119, 34, 125] _ (by decide) (by decide)

/-- C10: when the host name has not been set (it is null), `mqttPublish`
returns false for every topic and value without attempting any publish, so no
observable state changes. -/
theorem mqttPublish_null_host (ok : Bool) (topic value : String) :
    mqttPublish none ok topic value = (false, []) := by
  simp [mqttPublish]

/-- C2: a `"true"` payload while the relay is physically off drives the GPIO
high and sets the dirty flag; a `"true"` payload while it is already on
changes nothing (no GPIO write, dirty flag untouched); symmetrically for
`"false"`. -/
theorem mqttCallback_commands (s : DeviceState) :
    (s.relayLevel = false → mqttCallback (strBytes "true") s =
      { s with relayLevel := true, relaySwitched := true }) ∧
    (s.relayLevel = true → mqttCallback (strBytes "true") s = s) ∧
    (s.relayLevel = true → mqttCallback (strBytes "false") s =
      { s with relayLevel := false, relaySwitched := true }) ∧
    (s.relayLevel = false → mqttCallback (strBytes "false") s = s) := by
  refine ⟨?_, ?_, ?_, ?_⟩ <;> intro h <;>
    simp [mqttCallback, h, equals_true_true, equals_true_false,
      equals_false_false, equals_false_true]

/-- Witness for C2: the four command/level combinations at concrete states. -/
theorem mqttCallback_commands_witness :
    mqttCallback (strBytes "true") ⟨false, false, true⟩ =
      ⟨true, true, true⟩ ∧
    mqttCallback (strBytes "true") ⟨true, false, true⟩ =
      ⟨true, false, true⟩ ∧
    mqttCallback (strBytes "false") ⟨true, false, true⟩ =
      ⟨false, true, true⟩ ∧
    mqttCallback (strBytes "false") ⟨false, false, true⟩ =
      ⟨false, false, true⟩ :=
  ⟨(mqttCallback_commands ⟨false, false, true⟩).1 rfl,
   (mqttCallback_commands ⟨true, false, true⟩).2.1 rfl,
   (mqttCallback_commands ⟨true, false, true⟩).2.2.1 rfl,
   (mqttCallback_commands ⟨false, false, true⟩).2.2.2 rfl⟩

/-- C3: any payload that is not byte-for-byte `"true"` and not byte-for-byte
`"false"` (case-sensitive, exact length) leaves the state unchanged: no GPIO
write and the dirty flag untouched. -/
theorem mqttCallback_unrecognized (payload : List Nat) (s : DeviceState)
    (ht : equals payload trueString = false)
    (hf : equals payload falseString = false) :
    mqttCallback payload s = s := by
  simp [mqttCallback, ht, hf]

/-- Witness for C3 at the payload `"True"` (wrong case) and a concrete
state. -/
theorem mqttCallback_unrecognized_witness :
    equals (strBytes "True") trueString = false ∧
    equals (strBytes "True") falseString = false ∧
    mqttCallback (strBytes "True") ⟨false, false, true⟩ =
      ⟨false, false, true⟩ :=
  ⟨by decide, by decide,
   mqttCallback_unrecognized (strBytes "True") ⟨false, false, true⟩
     (by decide) (by decide)⟩

/-- C4: with the `mqtt` section present, the connect routine makes exactly 3
connect attempts when all of them fail, yields cooperatively after each
failed attempt except the last, and then returns failure rather than
retrying further; with the section absent it fails at once with no connect
attempt. -/
theorem mqttConnect_bounded_retry (hostName : Option String)
    (res : Nat → Bool) (subOk : Bool) :
    mqttConnect false hostName res subOk = (false, []) ∧
    (res 0 = false → res 1 = false → res 2 = false →
      mqttConnect true hostName res subOk =
        (false, [MEvent.connectAttempt, MEvent.yieldCoop,
                 MEvent.connectAttempt, MEvent.yieldCoop,
                 MEvent.connectAttempt])) := by
  constructor
  · simp [mqttConnect]
  · intro h0 h1 h2
    simp [mqttConnect, connectWhile, h0, h1, h2]

/-- Witness for C4: a broker that always refuses, with and without the
`mqtt` config section. -/
theorem mqttConnect_bounded_retry_witness :
    mqttConnect false (some "sw") (fun _ => false) true = (false, []) ∧
    mqttConnect true (some "sw") (fun _ => false) true =
      (false, [MEvent.connectAttempt, MEvent.yieldCoop,
               MEvent.connectAttempt, MEvent.yieldCoop,
               MEvent.connectAttempt]) :=
  ⟨(mqttConnect_bounded_retry (some "sw") (fun _ => false) true).1,
   (mqttConnect_bounded_retry (some "sw") (fun _ => false) true).2
     rfl rfl rfl⟩

/-- C5 counterexample: with the `mqtt` section present, a first-try connect
success and a failing subscribe, `mqttConnect` reports failure — the claim
that it "still reports overall success" is false on the code, which returns
false when the subscribe fails. -/
theorem mqttConnect_subscribe_cex :
    ¬ (mqttConnect true (some "sw") (fun _ => true) false).1 = true := by
  decide

/-- C5 (amended): after a successful connect, a failing subscribe to
`homie/<host>/switch/1/set` is reported and makes `mqttConnect` return
failure; the established session is not torn down by the routine (no
disconnect is issued), but the routine's overall result is false. -/
theorem mqttConnect_subscribe_failure (h : String) (res : Nat → Bool)
    (hc : res 0 = true) :
    mqttConnect true (some h) res false =
      (false, [MEvent.connectAttempt,
               MEvent.subscribe ("homie/" ++ h ++ "/switch/1/set")]) := by
  simp [mqttConnect, connectWhile, hc]

/-- Witness for C5 (amended) at a concrete host and broker oracle. -/
theorem mqttConnect_subscribe_failure_witness :
    mqttConnect true (some "sw") (fun _ => true) false =
      (false, [MEvent.connectAttempt,
               MEvent.subscribe ("homie/" ++ "sw" ++ "/switch/1/set")]) :=
  mqttConnect_subscribe_failure "sw" (fun _ => true) rfl

/-- C6: if the `$homie` liveness-probe publish fails, `mqttAnnounce` aborts
at once with failure and attempts none of the remaining publishes; if the
probe succeeds, it attempts all eleven topology publishes and returns
success regardless of their outcomes (`res 1`, `res 2`, ... are
unconstrained). -/
theorem mqttAnnounce_probe (h : String) (res : Nat → Bool) :
    (res 0 = false → mqttAnnounce (some h) res =
      (false, [MEvent.publish ("homie/" ++ h ++ "/$homie") "4.0.0"])) ∧
    (res 0 = true → mqttAnnounce (some h) res =
      (true, MEvent.publish ("homie/" ++ h ++ "/$homie") "4.0.0" ::
        (announceRest h).map
          fun p => MEvent.publish ("homie/" ++ h ++ "/" ++ p.1) p.2)) := by
  constructor
  · intro h0
    simp [mqttAnnounce, mqttPublish, h0, topic_merge h "$homie" "/$homie" rfl]
  · intro h0
    simp [mqttAnnounce, mqttPublish, h0, topic_merge h "$homie" "/$homie" rfl]

/-- Witness for C6: a failing probe aborts, a succeeding probe with all
later publishes failing still returns success. -/
theorem mqttAnnounce_probe_witness :
    mqttAnnounce (some "sw") (fun _ => false) =
      (false, [MEvent.publish ("homie/" ++ "sw" ++ "/$homie") "4.0.0"]) ∧
    (mqttAnnounce (some "sw") (fun i => i == 0)).1 = true :=
  ⟨(mqttAnnounce_probe "sw" (fun _ => false)).1 rfl,
   by rw [(mqttAnnounce_probe "sw" (fun i => i == 0)).2 rfl]⟩

/-- C1: in a supervisory-loop cycle with the connection ready and the dirty
flag set (and no inbound command interleaving), the controller publishes the
physically-read relay level to `switch/1`, the dirty flag ends the cycle
false if and only if that publish succeeded, and the relay level is
untouched — so a failed publish leaves the same value to be retried on the
next cycle. -/
theorem loop_publish_dirty (hasMqtt : Bool) (h : String) (s : DeviceState)
    (env : LoopEnv) (hready : s.mqttReady = true)
    (hdirty : s.relaySwitched = true) (hin : env.inbound = []) :
    MEvent.publish ("homie/" ++ h ++ "/switch/1")
        (if s.relayLevel then trueString else falseString) ∈
      (loopStep hasMqtt (some h) s env).2 ∧
    ((loopStep hasMqtt (some h) s env).1.relaySwitched = false ↔
      env.publishOk = true) ∧
    (loopStep hasMqtt (some h) s env).1.relayLevel = s.relayLevel := by
  rcases env with ⟨pok, cok, inb, rres, sok⟩
  simp only at hin
  subst hin
  cases pok <;> cases cok <;>
    simp [loopStep, mqttPublish, hready, hdirty,
      topic_merge h "switch/1" "/switch/1" rfl]

/-- Witness for C1: ready, dirty, relay HIGH; a failing publish leaves the
flag set, a succeeding one clears it. -/
theorem loop_publish_dirty_witness :
    MEvent.publish ("homie/" ++ "sw" ++ "/switch/1")
        (if (⟨true, true, true⟩ : DeviceState).relayLevel then trueString
         else falseString) ∈
      (loopStep true (some "sw") ⟨true, true, true⟩
        ⟨false, true, [], fun _ => false, true⟩).2 ∧
    ((loopStep true (some "sw") ⟨true, true, true⟩
        ⟨false, true, [], fun _ => false, true⟩).1.relaySwitched = false ↔
      (false : Bool) = true) ∧
    (loopStep true (some "sw") ⟨true, true, true⟩
        ⟨false, true, [], fun _ => false, true⟩).1.relayLevel =
      (⟨true, true, true⟩ : DeviceState).relayLevel :=
  loop_publish_dirty true "sw" ⟨true, true, true⟩
    ⟨false, true, [], fun _ => false, true⟩ rfl rfl rfl

/-- C9: the session-loss reconnect path of the loop (ready, clean dirty
flag, client loop reporting failure) reassigns only `mqttReady` from the
fresh `mqttConnect` result: the dirty flag and relay level are unchanged,
and no publish occurs in the whole cycle — neither the relay value nor any
Homie topology topic is re-published by a reconnect alone. -/
theorem loop_reconnect_frame (hasMqtt : Bool) (hostName : Option String)
    (s : DeviceState) (env : LoopEnv) (hready : s.mqttReady = true)
    (hclean : s.relaySwitched = false) (hfail : env.clientLoopOk = false) :
    (loopStep hasMqtt hostName s env).1 =
      { s with mqttReady :=
          (mqttConnect hasMqtt hostName env.reconnectRes env.subscribeOk).1 } ∧
    ∀ t v, MEvent.publish t v ∉ (loopStep hasMqtt hostName s env).2 := by
  constructor
  · simp [loopStep, hready, hclean, hfail]
  · intro t v
    simp only [loopStep, hready, hclean, hfail, Bool.not_true,
      Bool.false_eq_true, if_false, if_true, List.nil_append]
    simp [mqttConnect_no_publish hasMqtt hostName env.reconnectRes
      env.subscribeOk t v]

/-- Witness for C9: a ready, clean state whose client loop fails; the
reconnect succeeds and only the readiness flag is rewritten. -/
theorem loop_reconnect_frame_witness :
    (loopStep true (some "sw") ⟨true, false, true⟩
        ⟨true, false, [], fun _ => true, true⟩).1 =
      { (⟨true, false, true⟩ : DeviceState) with mqttReady :=
          (mqttConnect true (some "sw") (fun _ => true) true).1 } ∧
    ∀ t v, MEvent.publish t v ∉
      (loopStep true (some "sw") ⟨true, false, true⟩
        ⟨true, false, [], fun _ => true, true⟩).2 :=
  loop_reconnect_frame true (some "sw") ⟨true, false, true⟩
    ⟨true, false, [], fun _ => true, true⟩ rfl rfl rfl

end MainsSwitch
